import Mathlib

/-!
Verification development for the devlogd Chrome-DevTools-Protocol client.

The definitions below are a shallow embedding of the Python source:

* `CDPTarget` / `find_target` embed `devlogd/core/cdp_client.py`, target
  discovery and selection (`CDPClient.find_target`).
* The log-event normalizer (`devlogd/core/log_event.py`):
  `LogEvent.from_exception_thrown`, `_format_stack_trace`.
* The watch/network correlator (`CDPClient.stream_network` together with the
  `WatchEvent` constructors).
* The frame resolver (`CDPClient._collect_child_frames`,
  `CDPClient.find_iframe_context`).
* A small-step model of the session multiplexer (`CDPClient.send_command`,
  `CDPClient._receive_loop`, `CDPClient.disconnect`, `CDPClient.stream_events`).

Python dictionaries with optional keys are embedded as structures with
`Option` fields (`none` = key absent); `dict.get(k, d)` becomes
`Option.getD`.  Python string truthiness ("" and `None` are falsy) is the
`truthy` predicate.
-/

namespace Devlogd

/-- Contiguous-sublist test on character lists (helper for `strContains`). -/
def occursIn (needle : List Char) : List Char → Bool
  | [] => needle.isEmpty
  | c :: rest => needle.isPrefixOf (c :: rest) || occursIn needle rest

/-- Python `needle in haystack` on strings: contiguous substring test. -/
def strContains (haystack needle : String) : Bool :=
  occursIn needle.toList haystack.toList

/-- Python truthiness of an optional string: `None` and `""` are falsy. -/
def truthy (s : Option String) : Bool :=
  match s with
  | none => false
  | some s => !s.isEmpty

/-- Embeds the `CDPTarget` dataclass of `cdp_client.py`. -/
structure CDPTarget where
  id : String
  title : String
  url : String
  target_type : String
  websocket_url : String
deriving DecidableEq, Repr

/-- Embeds `CDPClient.find_target`.  The surrounding `list_targets` HTTP fetch
is out of scope: the target directory is the explicit `targets` argument.
`Except.error` stands for the raised `TargetNotFoundError`. -/
def find_target (targets : List CDPTarget)
    (target_id url_filter title_filter : Option String) : Except String CDPTarget :=
  if targets.isEmpty then
    .error "No targets available"
  else if truthy target_id then
    match targets.find? (fun t => t.id == target_id.getD "") with
    | some t => .ok t
    | none => .error ("Target " ++ target_id.getD "" ++ " not found")
  else
    let page_targets := targets.filter (fun t => t.target_type == "page")
    if truthy url_filter then
      match page_targets.find? (fun t => strContains t.url (url_filter.getD "")) with
      | some t => .ok t
      | none => .error ("No target matching URL " ++ url_filter.getD "")
    else if truthy title_filter then
      match page_targets.find? (fun t => strContains t.title (title_filter.getD "")) with
      | some t => .ok t
      | none => .error ("No target matching title " ++ title_filter.getD "")
    else
      match page_targets.head? with
      | some t => .ok t
      | none =>
        match targets.head? with
        | some t => .ok t
        | none => .error "No targets available"

/-- Written from the spec words for target resolution (claim C4): exact id
match over all targets, else URL substring over page-type targets only, else
title substring similarly restricted, else first page-type target falling back
to the first target of any type; `none` is NotFound (in particular on an empty
directory).  A selector counts as given when it is a non-empty string. -/
def resolve_spec (targets : List CDPTarget)
    (target_id url_filter title_filter : Option String) : Option CDPTarget :=
  if truthy target_id then
    targets.find? (fun t => t.id == target_id.getD "")
  else if truthy url_filter then
    (targets.filter (fun t => t.target_type == "page")).find?
      (fun t => strContains t.url (url_filter.getD ""))
  else if truthy title_filter then
    (targets.filter (fun t => t.target_type == "page")).find?
      (fun t => strContains t.title (title_filter.getD ""))
  else
    match (targets.filter (fun t => t.target_type == "page")).head? with
    | some t => some t
    | none => targets.head?

/-- Embeds the `TargetInfo` pydantic model of `log_event.py`. -/
structure TargetInfo where
  id : String
  title : String
  url : String
deriving DecidableEq, Repr

/-- Embeds the `LogLevel` enum of `log_event.py`. -/
inductive LogLevel where
  | debug
  | info
  | warn
  | error
deriving DecidableEq, Repr

/-- Embeds the `LogKind` enum of `log_event.py`. -/
inductive LogKind where
  | console
  | exception
  | browser_log
deriving DecidableEq, Repr

/-- Embeds the `SourceLocation` pydantic model of `log_event.py`. -/
structure SourceLocation where
  url : String
  line : Nat
  column : Nat
deriving DecidableEq, Repr

/-- A CDP stack-trace call frame as read by `log_event.py` (`Option` = key
absent in the JSON dictionary). -/
structure CallFrame where
  functionName : Option String := none
  url : Option String := none
  lineNumber : Option Nat := none
  columnNumber : Option Nat := none
deriving DecidableEq, Repr, Inhabited

/-- A CDP `StackTrace` object: the `callFrames` list (`.get("callFrames", [])`). -/
structure StackTrace where
  callFrames : List CallFrame := []
deriving DecidableEq, Repr, Inhabited

/-- The `exception` RemoteObject inside `exceptionDetails`, restricted to the
keys `from_exception_thrown` reads.  The raw `value` can be any JSON scalar;
it is embedded as its textual form. -/
structure ExceptionObj where
  description : Option String := none
  value : Option String := none
deriving DecidableEq, Repr, Inhabited

/-- The `exceptionDetails` object of a `Runtime.exceptionThrown` event,
restricted to the keys `from_exception_thrown` reads. -/
structure ExceptionDetails where
  exception : Option ExceptionObj := none
  stackTrace : Option StackTrace := none
  executionContextId : Option Int := none
deriving DecidableEq, Repr, Inhabited

/-- Params of a `Runtime.exceptionThrown` event.  The `timestamp` is kept as
the raw CDP milliseconds value (`none` = absent; the source then falls back to
the wall clock, which is outside this model). -/
structure ExceptionThrownEvent where
  exceptionDetails : Option ExceptionDetails := none
  timestamp : Option Nat := none
deriving DecidableEq, Repr, Inhabited

/-- Embeds the `LogEvent` pydantic model (the fields the claims touch; `ts`
is kept as the raw optional CDP timestamp). -/
structure LogEvent where
  ts : Option Nat := none
  level : LogLevel
  kind : LogKind
  text : String
  args : List (Option String) := []
  source : Option SourceLocation := none
  stack : Option String := none
  target : Option TargetInfo := none
  execution_context_id : Option Int := none
deriving DecidableEq, Repr

/-- Embeds `_format_stack_trace` of `log_event.py`:
`f"    at \x7bfn_name\x7d (\x7burl\x7d:\x7bline_num\x7d:\x7bcol\x7d)"` per
frame, joined by newline, with `functionName` defaulting to `(anonymous)`,
`url` to `""`, line and column to `0`. -/
def _format_stack_trace (call_frames : List CallFrame) : String :=
  String.intercalate "\n" (call_frames.map (fun frame =>
    "    at " ++ frame.functionName.getD "(anonymous)" ++ " (" ++
      frame.url.getD "" ++ ":" ++ toString (frame.lineNumber.getD 0) ++ ":" ++
      toString (frame.columnNumber.getD 0) ++ ")"))

/-- Embeds `LogEvent.from_exception_thrown` of `log_event.py`. -/
def LogEvent.from_exception_thrown (event : ExceptionThrownEvent)
    (target : Option TargetInfo := none) : LogEvent :=
  let exception_details := event.exceptionDetails.getD default
  let exception := exception_details.exception.getD default
  let text := exception.description.getD (exception.value.getD "Unknown exception")
  let call_frames := (exception_details.stackTrace.getD default).callFrames
  let source : Option SourceLocation :=
    match call_frames.head? with
    | some frame =>
        some { url := frame.url.getD "", line := frame.lineNumber.getD 0,
               column := frame.columnNumber.getD 0 }
    | none => none
  let stack_str : Option String :=
    if call_frames.isEmpty then none else some (_format_stack_trace call_frames)
  { ts := event.timestamp
    level := .error
    kind := .exception
    text := text
    source := source
    stack := stack_str
    target := target
    execution_context_id := exception_details.executionContextId }

/-- Written from the amended claim C5 wording: each frame rendered as
`"    at <function> (<url>:<line>:<col>)"` (note the space before the
parenthesis), frames joined by newline, unnamed functions shown as
`(anonymous)`. -/
def stack_render_spec (call_frames : List CallFrame) : String :=
  String.intercalate "\n" (call_frames.map (fun frame =>
    "    at " ++ frame.functionName.getD "(anonymous)" ++ " (" ++
      frame.url.getD "" ++ ":" ++ toString (frame.lineNumber.getD 0) ++ ":" ++
      toString (frame.columnNumber.getD 0) ++ ")"))

/-- Embeds the `WatchEventKind` enum of `log_event.py`. -/
inductive WatchEventKind where
  | click
  | navigation
  | request
  | redirect
  | message
  | response
  | failed
deriving DecidableEq, Repr

/-- The `request` object inside `Network.requestWillBeSent` params, restricted
to the keys the source reads. -/
structure RequestInfo where
  url : Option String := none
  method : Option String := none
deriving DecidableEq, Repr, Inhabited

/-- The `response` object inside `Network.responseReceived` params (also the
shape of `redirectResponse`), restricted to the keys the source reads. -/
structure ResponseInfo where
  url : Option String := none
  status : Option Int := none
  mimeType : Option String := none
deriving DecidableEq, Repr, Inhabited

/-- The params dictionary of a network-domain CDP event, restricted to the
keys `stream_network` and the `WatchEvent` constructors read.  The
`resourceType` field embeds the JSON key `"type"` (a Lean keyword). -/
structure NetworkParams where
  requestId : Option String := none
  resourceType : Option String := none
  request : Option RequestInfo := none
  response : Option ResponseInfo := none
  redirectResponse : Option ResponseInfo := none
  frameId : Option String := none
  errorText : Option String := none
  timestamp : Option Nat := none
deriving DecidableEq, Repr, Inhabited

/-- A raw CDP event as dispatched by `stream_network`: the `method` string
(`event.get("method", "")`) plus its params. -/
structure RawEvent where
  method : String := ""
  params : NetworkParams := {}
deriving DecidableEq, Repr, Inhabited

/-- Embeds the `WatchEvent` pydantic model (the fields the claims touch; the
`element` dictionary of click/message events is omitted, `ts` is the raw
optional CDP timestamp). -/
structure WatchEvent where
  ts : Option Nat := none
  kind : WatchEventKind
  url : String
  method : Option String := none
  status : Option Int := none
  resource_type : Option String := none
  redirect_url : Option String := none
  target : Option TargetInfo := none
  request_id : Option String := none
  error_text : Option String := none
  mime_type : Option String := none
  frame_id : Option String := none
deriving DecidableEq, Repr

/-- Embeds `WatchEvent.from_request_will_be_sent` of `log_event.py`. -/
def WatchEvent.from_request_will_be_sent (params : NetworkParams)
    (target : Option TargetInfo := none) : WatchEvent :=
  let request := params.request.getD default
  let redirect_response := params.redirectResponse
  { ts := params.timestamp
    kind := if redirect_response.isSome then .redirect else .request
    url := request.url.getD ""
    method := request.method
    resource_type := params.resourceType
    redirect_url := if redirect_response.isSome then request.url else none
    status := redirect_response.bind (fun r => r.status)
    target := target
    request_id := params.requestId
    frame_id := params.frameId }

/-- Embeds `WatchEvent.from_response_received` of `log_event.py`. -/
def WatchEvent.from_response_received (params : NetworkParams)
    (target : Option TargetInfo := none) : WatchEvent :=
  let response := params.response.getD default
  { ts := params.timestamp
    kind := .response
    url := response.url.getD ""
    status := response.status
    resource_type := params.resourceType
    target := target
    request_id := params.requestId
    frame_id := params.frameId
    mime_type := response.mimeType }

/-- Embeds `WatchEvent.from_loading_failed` of `log_event.py`. -/
def WatchEvent.from_loading_failed (params : NetworkParams)
    (target : Option TargetInfo := none) : WatchEvent :=
  { ts := params.timestamp
    kind := .failed
    url := ""
    resource_type := params.resourceType
    target := target
    request_id := params.requestId
    error_text := params.errorText }

/-- An entry of `stream_network`'s `pending_requests` table
(`\x7b"url", "method", "type", "frame_id"\x7d`, the first three always
present strings, `frame_id` an optional string). -/
structure PendingInfo where
  url : String
  method : String
  resourceType : String
  frame_id : Option String
deriving DecidableEq, Repr

/-- The keyword arguments of `stream_network`.  `resource_types` and
`status_filter` are optional sets, embedded as optional lists. -/
structure NetCfg where
  include_requests : Bool := true
  include_responses : Bool := true
  include_failures : Bool := true
  resource_types : Option (List String) := none
  status_filter : Option (List Int) := none
deriving Repr

/-- Python `resource_types and resource_type not in resource_types`: the
filter only applies when the set is given and non-empty. -/
def typeFilteredOut (rts : Option (List String)) (rt : String) : Bool :=
  match rts with
  | none => false
  | some l => !l.isEmpty && !l.contains rt

/-- Python `status_filter and status not in status_filter`. -/
def statusFilteredOut (sf : Option (List Int)) (status : Int) : Bool :=
  match sf with
  | none => false
  | some l => !l.isEmpty && !l.contains status

/-- One iteration of `stream_network`'s event loop: given the pending-request
table and one raw event, returns the updated table and the list of
`WatchEvent`s yielded for that event.  The table is embedded as a function
`String → Option PendingInfo` mirroring the Python dict. -/
def stream_network_step (cfg : NetCfg) (target : Option TargetInfo)
    (pending : String → Option PendingInfo) (event : RawEvent) :
    (String → Option PendingInfo) × List WatchEvent :=
  let params := event.params
  if event.method = "Network.requestWillBeSent" then
    let request_id := params.requestId.getD ""
    let resource_type := params.resourceType.getD ""
    if typeFilteredOut cfg.resource_types resource_type then
      (pending, [])
    else
      let info : PendingInfo :=
        { url := (params.request.getD default).url.getD ""
          method := (params.request.getD default).method.getD "GET"
          resourceType := resource_type
          frame_id := params.frameId }
      let pending2 := fun r => if r = request_id then some info else pending r
      (pending2,
        if cfg.include_requests then [WatchEvent.from_request_will_be_sent params target]
        else [])
  else if event.method = "Network.responseReceived" then
    let request_id := params.requestId.getD ""
    let response := params.response.getD default
    let status := response.status.getD 0
    if statusFilteredOut cfg.status_filter status then
      (pending, [])
    else
      let resource_type := params.resourceType.getD ""
      if typeFilteredOut cfg.resource_types resource_type then
        (pending, [])
      else
        let pending2 := fun r => if r = request_id then none else pending r
        (pending2,
          if cfg.include_responses then [WatchEvent.from_response_received params target]
          else [])
  else if event.method = "Network.loadingFailed" then
    let request_id := params.requestId.getD ""
    let request_info := pending request_id
    let pending2 := fun r => if r = request_id then none else pending r
    let resource_type := params.resourceType.getD ""
    if typeFilteredOut cfg.resource_types resource_type then
      (pending2, [])
    else
      (pending2,
        if cfg.include_failures then
          [{ WatchEvent.from_loading_failed params target with
              url := (request_info.map (fun i => i.url)).getD ""
              method := request_info.map (fun i => i.method)
              frame_id := request_info.bind (fun i => i.frame_id) }]
        else [])
  else
    (pending, [])

/-- Folds `stream_network_step` over a finite prefix of the event stream,
collecting the yielded watch events in order. -/
def stream_network_run (cfg : NetCfg) (target : Option TargetInfo)
    (pending : String → Option PendingInfo) :
    List RawEvent → (String → Option PendingInfo) × List WatchEvent
  | [] => (pending, [])
  | e :: rest =>
      let (pending2, out) := stream_network_step cfg target pending e
      let (pending3, out2) := stream_network_run cfg target pending2 rest
      (pending3, out ++ out2)

/-- A frame record inside a `Page.getFrameTree` result, restricted to the
keys `find_iframe_context` reads (`frame.get("id")`, `frame.get("url", "")`). -/
structure Frame where
  id : Option String := none
  url : Option String := none
deriving DecidableEq, Repr, Inhabited

/-- A node of the frame tree: the node's `frame` object plus its
`childFrames` list. -/
inductive FrameTree where
  | node (frame : Frame) (childFrames : List FrameTree)

/-- The `frame` object of a tree node. -/
def FrameTree.frame : FrameTree → Frame
  | .node f _ => f

/-- The `childFrames` list of a tree node. -/
def FrameTree.childFrames : FrameTree → List FrameTree
  | .node _ cs => cs

/-- Helper for `_collect_child_frames`: flattens a list of child nodes
depth-first, each child's own frame before its descendants. -/
def collectFrames : List FrameTree → List Frame
  | [] => []
  | .node f cs :: rest => f :: (collectFrames cs ++ collectFrames rest)

/-- Embeds `CDPClient._collect_child_frames`: appends, for each child of the
given node, the child's frame and then (recursively) the child's own
children, in order.  The root node's own frame is never collected. -/
def _collect_child_frames (frame_tree : FrameTree) : List Frame :=
  collectFrames frame_tree.childFrames

/-- Embeds `CDPClient.find_iframe_context`, with the frame tree (the result of
the `Page.getFrameTree` round-trip) passed explicitly.  A truthy `url_filter`
selects the first flattened frame whose url contains the substring; otherwise
`index` selects the `index`-th flattened frame; out-of-range or no match gives
`none` (as does a matching frame whose `id` key is absent). -/
def find_iframe_context (frame_tree : FrameTree)
    (url_filter : Option String := none) (index : Nat := 0) : Option String :=
  let iframe_frames := _collect_child_frames frame_tree
  if truthy url_filter then
    (iframe_frames.find? (fun f => strContains (f.url.getD "") (url_filter.getD ""))).bind
      (fun f => f.id)
  else if index < iframe_frames.length then
    (iframe_frames.get? index).bind (fun f => f.id)
  else
    none

/-- The `error` object of a CDP reply (`\x7b"code", "message"\x7d`). -/
structure CDPErrorShape where
  code : Option Int := none
  message : Option String := none
deriving DecidableEq, Repr, Inhabited

/-- A raw message read off the WebSocket by `_receive_loop`, restricted to the
keys it inspects: the reply path looks at `"id"`, `"error"` and `"result"`;
anything else rides along in `method`/`params` (the event payload). -/
structure RawMsg where
  id : Option Nat := none
  error : Option CDPErrorShape := none
  result : Option String := none
  method : Option String := none
  params : Option String := none
deriving DecidableEq, Repr, Inhabited

/-- How one `send_command` call ends: `fulfilled` with the reply's `result`
(defaulting to the empty object), `protocolError` with the remote error's code
and message (the raised `CDPProtocolError`), or `connectionError` (the raised
`CDPConnectionError`, covering the 30-second timeout — including a call whose
slot was cleared by `disconnect`). -/
inductive Outcome where
  | fulfilled (result : String)
  | protocolError (code : Int) (message : String)
  | connectionError
deriving DecidableEq, Repr

/-- The session state of `CDPClient` together with the bookkeeping needed to
talk about call completion:

* `ws_connected` — `self._ws is not None`;
* `recv_alive` — the background `_receive_loop` task is running;
* `message_id` — `self._message_id`;
* `pending_commands` — the keys of `self._pending_commands` (the result-slot
  dict);
* `suspended` — the ids of `send_command` calls currently awaiting their
  future (a slot cleared by `disconnect` leaves the call suspended even though
  the id is gone from `pending_commands`);
* `completed` — the log of finished calls, in completion order;
* `event_queue` — `self._event_queue` contents, in arrival order. -/
structure SessionSt where
  ws_connected : Bool := false
  recv_alive : Bool := false
  message_id : Nat := 0
  pending_commands : List Nat := []
  suspended : List Nat := []
  completed : List (Nat × Outcome) := []
  event_queue : List RawMsg := []
deriving DecidableEq, Repr

/-- The freshly constructed `CDPClient` state. -/
def initSession : SessionSt := {}

/-- The entry protocol of `send_command` (`cdp_client.py` lines 147-166): not
connected fails immediately with `CDPConnectionError` and touches nothing;
otherwise the counter is bumped, a result-slot is registered under the new id
and the message is written to the channel. -/
def send_command_start (st : SessionSt) : Except String (SessionSt × Nat) :=
  if !st.ws_connected then
    .error "Not connected to any target"
  else
    let msg_id := st.message_id + 1
    .ok ({ st with
            message_id := msg_id
            pending_commands := st.pending_commands ++ [msg_id]
            suspended := st.suspended ++ [msg_id] }, msg_id)

/-- The outcome `_receive_loop` delivers for a reply message: an `"error"`
shape fails the future with `CDPProtocolError(code, message)` (defaults `-1`
and `""`), otherwise it is fulfilled with `message.get("result", \x7b\x7d)`. -/
def replyOutcome (m : RawMsg) : Outcome :=
  match m.error with
  | some err => .protocolError (err.code.getD (-1)) (err.message.getD "")
  | none => .fulfilled (m.result.getD "")

/-- One message processed by `_receive_loop` (`cdp_client.py` lines 462-480):
a message carrying an `"id"` is popped against the pending dict — on a match
the call completes with `replyOutcome`, on a miss the message is dropped —
while a message without an `"id"` is enqueued on the event queue. -/
def receive_one (st : SessionSt) (m : RawMsg) : SessionSt :=
  match m.id with
  | some msg_id =>
      if st.pending_commands.contains msg_id then
        { st with
            pending_commands := st.pending_commands.erase msg_id
            suspended := st.suspended.erase msg_id
            completed := st.completed ++ [(msg_id, replyOutcome m)] }
      else
        { st with pending_commands := st.pending_commands.erase msg_id }
  | none => { st with event_queue := st.event_queue ++ [m] }

/-- The atomic actions of the session model. -/
inductive Act where
  /-- A `send_command` call starts (connected or not). -/
  | send
  /-- The background receive loop reads one message off the channel. -/
  | recv (m : RawMsg)
  /-- The 30-second `asyncio.wait_for` timeout of the call with the given id
  fires: the slot is popped (`pop(msg_id, None)`) and the call raises
  `CDPConnectionError`. -/
  | timeout (msg_id : Nat)
  /-- `CDPClient.disconnect()`: cancel the receive task, close the channel,
  clear `_pending_commands` — without resolving the cleared futures. -/
  | disconnect
  /-- `CDPClient.connect(target)`: open the channel, start a fresh receive
  task. -/
  | connect

/-- Small-step transition of the session model.  Guards mirror reality: a
cancelled receive loop reads nothing, a timeout only fires for a call that is
still awaiting. -/
def step (st : SessionSt) : Act → SessionSt
  | .send =>
      match send_command_start st with
      | .ok (st2, _) => st2
      | .error _ => st
  | .recv m => if st.recv_alive then receive_one st m else st
  | .timeout msg_id =>
      if st.suspended.contains msg_id then
        { st with
            pending_commands := st.pending_commands.erase msg_id
            suspended := st.suspended.erase msg_id
            completed := st.completed ++ [(msg_id, .connectionError)] }
      else st
  | .disconnect =>
      { st with ws_connected := false, recv_alive := false, pending_commands := [] }
  | .connect => { st with ws_connected := true, recv_alive := true }

/-- Runs a finite trace of actions. -/
def run (st : SessionSt) (tr : List Act) : SessionSt :=
  tr.foldl step st

/-- The receive loop processing a finite prefix of the channel's messages. -/
def receive_run (st : SessionSt) (msgs : List RawMsg) : SessionSt :=
  run st (msgs.map Act.recv)

/-- Claim C1's reading of the event stream: a message is yielded by
`stream_events` iff it does not carry a request id matching a
currently-pending request (so a message with an unmatched id would be
yielded too).  Written from the spec's words, for comparison with the
source's routing. -/
def events_per_claim (pending : List Nat) (msgs : List RawMsg) : List RawMsg :=
  msgs.filter (fun m =>
    match m.id with
    | some msg_id => !pending.contains msg_id
    | none => true)

/-- C4: `find_target` resolves in the claimed order — exact id match over all
targets (NotFound if absent); else URL-substring match over page-type targets,
first match wins (NotFound if none); else title-substring match similarly
restricted; else the first page-type target, falling back to the first target
of any type; NotFound on an empty directory (`resolve_spec` is that order,
written from the claim).  On the claim's example directory, `url_filter`
`"foo"` resolves to target `"a"` and `url_filter` `"zzz"` is NotFound. -/
theorem c4_find_target_resolution_order :
    (∀ (targets : List CDPTarget) (tid uf tf : Option String),
        (find_target targets tid uf tf).toOption = resolve_spec targets tid uf tf)
    ∧ (find_target
        [{ id := "a", title := "", url := "http://x/foo", target_type := "page",
           websocket_url := "" },
         { id := "b", title := "", url := "http://y", target_type := "worker",
           websocket_url := "" }] none (some "foo") none).toOption =
        some { id := "a", title := "", url := "http://x/foo", target_type := "page",
               websocket_url := "" }
    ∧ (find_target
        [{ id := "a", title := "", url := "http://x/foo", target_type := "page",
           websocket_url := "" },
         { id := "b", title := "", url := "http://y", target_type := "worker",
           websocket_url := "" }] none (some "zzz") none).toOption = none := by
  refine ⟨?_, by decide, by decide⟩
  intro targets tid uf tf
  by_cases hE : targets.isEmpty
  · have h0 : targets = [] := by simpa using hE
    subst h0
    simp [find_target, resolve_spec, Except.toOption]
  · simp only [find_target, resolve_spec, hE, Bool.false_eq_true, if_false]
    split
    · cases targets.find? (fun t => t.id == tid.getD "") <;> rfl
    · split
      · cases (targets.filter (fun t => t.target_type == "page")).find?
          (fun t => strContains t.url (uf.getD "")) <;> rfl
      · split
        · cases (targets.filter (fun t => t.target_type == "page")).find?
            (fun t => strContains t.title (tf.getD "")) <;> rfl
        · cases hP : (targets.filter (fun t => t.target_type == "page")).head?
          · cases hT : targets.head?
            · exact absurd (List.head?_eq_none_iff.mp hT) (by simpa using hE)
            · simp [hP, hT, Except.toOption]
          · simp [hP, Except.toOption]

/-- C10: on a non-empty directory, empty-string selectors (`""` for
`target_id`, `url_filter` or `title_filter`) are treated as absent: the call
behaves exactly like the selector-free call and resolves to the first
page-type target, falling back to the first target of any type. -/
theorem c10_empty_string_selector_falls_through
    (targets : List CDPTarget) (tid uf tf : Option String)
    (htid : tid = none ∨ tid = some "") (huf : uf = none ∨ uf = some "")
    (htf : tf = none ∨ tf = some "") (hne : targets ≠ []) :
    find_target targets tid uf tf = find_target targets none none none ∧
    (find_target targets tid uf tf).toOption =
      ((targets.filter (fun t => t.target_type == "page")) ++ targets).head? := by
  have htid2 : truthy tid = false := by rcases htid with h | h <;> subst h <;> rfl
  have huf2 : truthy uf = false := by rcases huf with h | h <;> subst h <;> rfl
  have htf2 : truthy tf = false := by rcases htf with h | h <;> subst h <;> rfl
  have hE : targets.isEmpty = false := by simpa using hne
  have hnone : truthy none = false := rfl
  constructor
  · simp [find_target, htid2, huf2, htf2, hnone]
  · simp only [find_target, hE, Bool.false_eq_true, if_false, htid2, huf2, htf2,
      List.head?_append]
    cases hP : (targets.filter (fun t => t.target_type == "page")).head?
    · cases hT : targets.head?
      · exact absurd (List.head?_eq_none_iff.mp hT) hne
      · simp [hP, hT, Except.toOption]
    · simp [hP, Except.toOption]

/-- Witness for C10 at a concrete directory whose first target is a worker:
all three selectors given as `""` resolve to the page-type target. -/
theorem c10_empty_string_selector_falls_through_witness :
    find_target
      [{ id := "w", title := "", url := "http://w", target_type := "worker",
         websocket_url := "" },
       { id := "p", title := "", url := "http://p", target_type := "page",
         websocket_url := "" }] (some "") (some "") (some "") =
      find_target
      [{ id := "w", title := "", url := "http://w", target_type := "worker",
         websocket_url := "" },
       { id := "p", title := "", url := "http://p", target_type := "page",
         websocket_url := "" }] none none none ∧
    (find_target
      [{ id := "w", title := "", url := "http://w", target_type := "worker",
         websocket_url := "" },
       { id := "p", title := "", url := "http://p", target_type := "page",
         websocket_url := "" }] (some "") (some "") (some "")).toOption =
      ((([{ id := "w", title := "", url := "http://w", target_type := "worker",
            websocket_url := "" },
          { id := "p", title := "", url := "http://p", target_type := "page",
            websocket_url := "" }] : List CDPTarget).filter
            (fun t => t.target_type == "page")) ++
       ([{ id := "w", title := "", url := "http://w", target_type := "worker",
           websocket_url := "" },
         { id := "p", title := "", url := "http://p", target_type := "page",
           websocket_url := "" }] : List CDPTarget)).head? :=
  c10_empty_string_selector_falls_through _ _ _ _ (Or.inr rfl) (Or.inr rfl)
    (Or.inr rfl) (by decide)

/-- C8: non-root frames are flattened depth-first in encountered order; with
no URL selector the index selects into that flattened list (`none` out of
range), with a URL-substring selector the first flattened frame whose url
contains the substring wins (`none` if no match); on the example tree
`root → [childA, childB → [grandchild]]` the flattening is
`[childA, childB, grandchild]` and index 2 resolves to grandchild's id. -/
theorem c8_frame_flattening_and_iframe_resolution :
    (∀ (t : FrameTree) (index : Nat),
        find_iframe_context t none index =
          ((_collect_child_frames t).get? index).bind (fun f => f.id))
    ∧ (∀ (t : FrameTree) (uf : String) (index : Nat), uf ≠ "" →
        find_iframe_context t (some uf) index =
          ((_collect_child_frames t).find?
              (fun f => strContains (f.url.getD "") uf)).bind (fun f => f.id))
    ∧ _collect_child_frames
        (.node { id := some "root" }
          [.node { id := some "childA" } [],
           .node { id := some "childB" } [.node { id := some "grandchild" } []]]) =
        [{ id := some "childA" }, { id := some "childB" }, { id := some "grandchild" }]
    ∧ find_iframe_context
        (.node { id := some "root" }
          [.node { id := some "childA" } [],
           .node { id := some "childB" } [.node { id := some "grandchild" } []]])
        none 2 = some "grandchild" := by
  refine ⟨?_, ?_,
    by simp [_collect_child_frames, collectFrames, FrameTree.childFrames],
    by simp [find_iframe_context, _collect_child_frames, collectFrames,
         FrameTree.childFrames, truthy]⟩
  · intro t index
    by_cases h : index < (_collect_child_frames t).length
    · simp [find_iframe_context, truthy, h]
    · simp [find_iframe_context, truthy, h,
        List.getElem?_eq_none (Nat.le_of_not_lt h)]
  · intro t uf index huf
    have hie : uf.isEmpty = false := by
      cases hc : uf.isEmpty
      · rfl
      · exact absurd ((String.isEmpty_iff uf).mp hc) huf
    have h2 : truthy (some uf) = true := by simp [truthy, hie]
    simp [find_iframe_context, h2]

/-- Witness for C8's URL-selector clause: on the example tree the substring
`"b"` selects childB's id. -/
theorem c8_frame_flattening_and_iframe_resolution_witness :
    find_iframe_context
      (.node { id := some "root" }
        [.node { id := some "childA", url := some "http://a" } [],
         .node { id := some "childB", url := some "http://b" }
           [.node { id := some "grandchild", url := some "http://g" } []]])
      (some "b") 0 =
      ((_collect_child_frames
        (.node { id := some "root" }
          [.node { id := some "childA", url := some "http://a" } [],
           .node { id := some "childB", url := some "http://b" }
             [.node { id := some "grandchild", url := some "http://g" } []]])).find?
          (fun f => strContains (f.url.getD "") "b")).bind (fun f => f.id) :=
  c8_frame_flattening_and_iframe_resolution.2.1 _ "b" 0 (by decide)

/-- Counterexample to C5 as stated: the claim renders stack frames as
`"    at <function>(<url>:<line>:<col>)"`, but `_format_stack_trace` puts a
space between the function name and the opening parenthesis.  For the
exception payload with single frame `f` at `u:1:2`, the produced stack line is
`"    at f (u:1:2)"`, not the claimed `"    at f(u:1:2)"`. -/
theorem c5_stack_template_counterexample :
    (LogEvent.from_exception_thrown
      { exceptionDetails := some
          { exception := some { description := some "Boom", value := none }
            stackTrace := some { callFrames :=
              [{ functionName := some "f", url := some "u",
                 lineNumber := some 1, columnNumber := some 2 }] } } }).stack =
      some "    at f (u:1:2)" ∧
    (LogEvent.from_exception_thrown
      { exceptionDetails := some
          { exception := some { description := some "Boom", value := none }
            stackTrace := some { callFrames :=
              [{ functionName := some "f", url := some "u",
                 lineNumber := some 1, columnNumber := some 2 }] } } }).stack ≠
      some "    at f(u:1:2)" := by
  constructor <;> decide

/-- C5 (amended): `from_exception_thrown` always yields level `error` and kind
`exception`; the text is the exception's description, or its raw value when no
description is present; when call frames are present the first frame supplies
the source location and the stack is the frames rendered as
`"    at <function> (<url>:<line>:<col>)"` — with a space before the
parenthesis — joined by newline, unnamed functions shown as `(anonymous)`
(`stack_render_spec` is that rendering, written from the amended claim). -/
theorem c5_exception_normalization_amended
    (ev : ExceptionThrownEvent) (target : Option TargetInfo)
    (ed : ExceptionDetails) (hed : ev.exceptionDetails = some ed) :
    (LogEvent.from_exception_thrown ev target).level = .error ∧
    (LogEvent.from_exception_thrown ev target).kind = .exception ∧
    (∀ exc d, ed.exception = some exc → exc.description = some d →
        (LogEvent.from_exception_thrown ev target).text = d) ∧
    (∀ exc v, ed.exception = some exc → exc.description = none →
        exc.value = some v →
        (LogEvent.from_exception_thrown ev target).text = v) ∧
    (∀ st frame rest, ed.stackTrace = some st → st.callFrames = frame :: rest →
        (LogEvent.from_exception_thrown ev target).source =
          some { url := frame.url.getD "", line := frame.lineNumber.getD 0,
                 column := frame.columnNumber.getD 0 } ∧
        (LogEvent.from_exception_thrown ev target).stack =
          some (stack_render_spec st.callFrames)) ∧
    (∀ cf, _format_stack_trace cf = stack_render_spec cf) := by
  refine ⟨by simp [LogEvent.from_exception_thrown],
          by simp [LogEvent.from_exception_thrown], ?_, ?_, ?_, fun cf => rfl⟩
  · intro exc d hexc hd
    simp [LogEvent.from_exception_thrown, hed, hexc, hd]
  · intro exc v hexc hd hv
    simp [LogEvent.from_exception_thrown, hed, hexc, hd, hv]
  · intro st frame rest hst hcf
    refine ⟨?_, ?_⟩ <;>
      simp [LogEvent.from_exception_thrown, hed, hst, hcf, _format_stack_trace,
        stack_render_spec]

/-- Witness for C5 (amended) on a concrete exception payload with a
description and one anonymous frame. -/
theorem c5_exception_normalization_amended_witness :
    (LogEvent.from_exception_thrown
      { exceptionDetails := some
          { exception := some { description := some "Boom", value := none }
            stackTrace := some { callFrames := [{ url := some "u" }] } } }).level =
      LogLevel.error ∧
    (LogEvent.from_exception_thrown
      { exceptionDetails := some
          { exception := some { description := some "Boom", value := none }
            stackTrace := some { callFrames := [{ url := some "u" }] } } }).kind =
      LogKind.exception ∧
    (LogEvent.from_exception_thrown
      { exceptionDetails := some
          { exception := some { description := some "Boom", value := none }
            stackTrace := some { callFrames := [{ url := some "u" }] } } }).text =
      "Boom" ∧
    (LogEvent.from_exception_thrown
      { exceptionDetails := some
          { exception := some { description := some "Boom", value := none }
            stackTrace := some { callFrames := [{ url := some "u" }] } } }).stack =
      some (stack_render_spec [{ url := some "u" }]) :=
  ⟨(c5_exception_normalization_amended _ none _ rfl).1,
   (c5_exception_normalization_amended _ none
      { exception := some { description := some "Boom", value := none }
        stackTrace := some { callFrames := [{ url := some "u" }] } } rfl).2.1,
   (c5_exception_normalization_amended _ none
      { exception := some { description := some "Boom", value := none }
        stackTrace := some { callFrames := [{ url := some "u" }] } } rfl).2.2.1
      _ "Boom" rfl rfl,
   ((c5_exception_normalization_amended _ none
      { exception := some { description := some "Boom", value := none }
        stackTrace := some { callFrames := [{ url := some "u" }] } } rfl).2.2.2.2.1
      _ { url := some "u" } [] rfl rfl).2⟩

/-- C3: with no active filters, a `Network.requestWillBeSent` with requestId
`R` and url `U` followed by a `Network.responseReceived` for `R` with status
404 (and url `U`, as CDP replies carry the response url) makes the correlator
emit a request event with url `U` and then a response event with status 404
and url `U`; afterwards the pending table no longer holds `R`.  Stated for an
arbitrary prior pending table and arbitrary optional fields. -/
theorem c3_request_response_correlation
    (pending : String → Option PendingInfo) (target : Option TargetInfo)
    (R U : String) (rt1 rt2 fid1 fid2 mt : Option String) (t1 t2 : Option Nat) :
    (stream_network_run {} target pending
      [{ method := "Network.requestWillBeSent"
         params := { requestId := some R, resourceType := rt1
                     request := some { url := some U, method := some "GET" }
                     frameId := fid1, timestamp := t1 } },
       { method := "Network.responseReceived"
         params := { requestId := some R, resourceType := rt2
                     response := some { url := some U, status := some 404, mimeType := mt }
                     frameId := fid2, timestamp := t2 } }]).2.map
        (fun w => (w.kind, w.url, w.status)) =
      [(WatchEventKind.request, U, none), (WatchEventKind.response, U, some 404)] ∧
    (stream_network_run {} target pending
      [{ method := "Network.requestWillBeSent"
         params := { requestId := some R, resourceType := rt1
                     request := some { url := some U, method := some "GET" }
                     frameId := fid1, timestamp := t1 } },
       { method := "Network.responseReceived"
         params := { requestId := some R, resourceType := rt2
                     response := some { url := some U, status := some 404, mimeType := mt }
                     frameId := fid2, timestamp := t2 } }]).1 R = none := by
  constructor <;>
    simp [stream_network_run, stream_network_step, typeFilteredOut,
      statusFilteredOut, WatchEvent.from_request_will_be_sent,
      WatchEvent.from_response_received]

/-- C6: with no active filters, a `Network.loadingFailed` for a requestId with
no matching entry in the pending table still produces exactly one `failed`
watch event — with empty url, no method, and the failure's `errorText` — and
does not raise (`stream_network_step` is total). -/
theorem c6_unmatched_loading_failed
    (pending : String → Option PendingInfo) (target : Option TargetInfo)
    (R errText : String) (rt fid : Option String) (ts : Option Nat)
    (h : pending R = none) :
    (stream_network_step {} target pending
      { method := "Network.loadingFailed"
        params := { requestId := some R, resourceType := rt
                    errorText := some errText, frameId := fid,
                    timestamp := ts } }).2.map
        (fun w => (w.kind, w.url, w.method, w.error_text)) =
      [(WatchEventKind.failed, "", none, some errText)] := by
  simp [stream_network_step, typeFilteredOut, WatchEvent.from_loading_failed, h]

/-- Witness for C6: a loadingFailed for request id `R1` against the empty
pending table. -/
theorem c6_unmatched_loading_failed_witness :
    (stream_network_step {} none (fun _ => none)
      { method := "Network.loadingFailed"
        params := { requestId := some "R1", resourceType := none
                    errorText := some "net::ERR_FAILED", frameId := none,
                    timestamp := none } }).2.map
        (fun w => (w.kind, w.url, w.method, w.error_text)) =
      [(WatchEventKind.failed, "", none, some "net::ERR_FAILED")] :=
  c6_unmatched_loading_failed (fun _ => none) none "R1" "net::ERR_FAILED"
    none none none rfl

/-- `receive_one` never touches the connection flags. -/
theorem receive_one_recv_alive (st : SessionSt) (m : RawMsg) :
    (receive_one st m).recv_alive = st.recv_alive := by
  cases hm : m.id
  · simp [receive_one, hm]
  · simp only [receive_one, hm]
    split <;> rfl

/-- C9: a `send_command` call on a session with no open channel fails
immediately with `CDPConnectionError` and leaves the state unchanged — no
counter increment, no result-slot, nothing sent. -/
theorem c9_send_command_not_connected (st : SessionSt)
    (h : st.ws_connected = false) :
    send_command_start st = .error "Not connected to any target" ∧
    step st .send = st := by
  refine ⟨by simp [send_command_start, h], ?_⟩
  simp [step, send_command_start, h]

/-- Witness for C9: the freshly constructed session is not connected and
`send_command` fails on it without touching it. -/
theorem c9_send_command_not_connected_witness :
    send_command_start initSession = .error "Not connected to any target" ∧
    step initSession .send = initSession :=
  c9_send_command_not_connected initSession rfl

/-- Counterexample to C1 as stated: the claim says a message carrying a
request id with no matching pending slot is still yielded as an event.  On a
connected session with no pending commands, the receive loop processes the
message `\x7b"id": 5\x7d` without enqueuing it — the event queue stays empty —
while the claim's reading (`events_per_claim`) would yield it. -/
theorem c1_unmatched_id_counterexample :
    ({ ws_connected := true, recv_alive := true } : SessionSt).pending_commands
      = [] ∧
    events_per_claim
      ({ ws_connected := true, recv_alive := true } : SessionSt).pending_commands
      [{ id := some 5 }] = [{ id := some 5 }] ∧
    (receive_run { ws_connected := true, recv_alive := true }
      [{ id := some 5 }]).event_queue = [] ∧
    (receive_run { ws_connected := true, recv_alive := true }
      [{ id := some 5 }]).event_queue ≠
      ({ ws_connected := true, recv_alive := true } : SessionSt).event_queue ++
        events_per_claim
          ({ ws_connected := true, recv_alive := true } : SessionSt).pending_commands
          [{ id := some 5 }] := by
  decide

/-- C1 (amended): while the receive loop runs, the event queue receives
exactly the channel messages that carry no `"id"` key, in arrival order; every
message carrying an id — whether or not it matches a pending request — is
consumed by the reply path and never yielded (an unmatched one is dropped). -/
theorem c1_events_are_idless_messages_amended (st : SessionSt)
    (msgs : List RawMsg) (h : st.recv_alive = true) :
    (receive_run st msgs).event_queue =
      st.event_queue ++ msgs.filter (fun m => m.id.isNone) := by
  induction msgs generalizing st with
  | nil => simp [receive_run, run]
  | cons m rest ih =>
      have hrun : receive_run st (m :: rest) =
          receive_run (receive_one st m) rest := by
        simp [receive_run, run, step, h]
      have halive : (receive_one st m).recv_alive = true := by
        rw [receive_one_recv_alive, h]
      rw [hrun, ih _ halive]
      cases hm : m.id
      · have hq : (receive_one st m).event_queue = st.event_queue ++ [m] := by
          simp [receive_one, hm]
        rw [hq]
        simp [hm, List.append_assoc]
      · have hq : (receive_one st m).event_queue = st.event_queue := by
          simp only [receive_one, hm]
          split <;> rfl
        rw [hq]
        simp [hm]

/-- Witness for C1 (amended): on a live session, of an event message, a
matched reply and an unmatched reply, only the event message reaches the
queue. -/
theorem c1_events_are_idless_messages_amended_witness :
    (receive_run
      { ws_connected := true, recv_alive := true, message_id := 1,
        pending_commands := [1], suspended := [1] }
      [{ method := some "Runtime.consoleAPICalled" }, { id := some 1 },
       { id := some 5 }]).event_queue =
      ({ ws_connected := true, recv_alive := true, message_id := 1,
         pending_commands := [1], suspended := [1] } : SessionSt).event_queue ++
        ([{ method := some "Runtime.consoleAPICalled" }, { id := some 1 },
          { id := some 5 }].filter (fun m : RawMsg => m.id.isNone)) :=
  c1_events_are_idless_messages_amended _ _ rfl

/-- `List.contains` agrees with membership (true direction). -/
theorem contains_true_of_mem {l : List Nat} {a : Nat} (h : a ∈ l) :
    l.contains a = true :=
  List.elem_eq_true_of_mem h

/-- `List.contains` agrees with membership (false direction). -/
theorem contains_false_of_not_mem {l : List Nat} {a : Nat} (h : a ∉ l) :
    l.contains a = false := by
  cases hc : l.elem a
  · simpa [List.contains] using hc
  · exact absurd (List.mem_of_elem_eq_true hc) h

/-- Bookkeeping invariant of the session model: every registered result-slot
key belongs to a suspended call, slot keys are unique, and every id from 1 to
the message counter is accounted for exactly once — either still suspended or
completed — while other ids never appear. -/
def Inv (st : SessionSt) : Prop :=
  (∀ i ∈ st.pending_commands, i ∈ st.suspended) ∧
  st.pending_commands.Nodup ∧
  (∀ i, (st.completed.map Prod.fst).count i + st.suspended.count i =
    if 1 ≤ i ∧ i ≤ st.message_id then 1 else 0)

/-- The fresh session satisfies the invariant. -/
theorem Inv_initSession : Inv initSession := by
  refine ⟨by simp [initSession], by simp [initSession], fun i => ?_⟩
  show (0 : Nat) + 0 = if 1 ≤ i ∧ i ≤ 0 then 1 else 0
  rw [if_neg (by omega)]

/-- A suspended id lies between 1 and the message counter. -/
theorem Inv.mem_suspended_bound {st : SessionSt} (h : Inv st) {i : Nat}
    (hi : i ∈ st.suspended) : 1 ≤ i ∧ i ≤ st.message_id := by
  have hc := h.2.2 i
  have hpos : 0 < st.suspended.count i := List.count_pos_iff.mpr hi
  by_cases hcond : 1 ≤ i ∧ i ≤ st.message_id
  · exact hcond
  · rw [if_neg hcond] at hc
    omega

/-- The suspended-call list has no duplicates. -/
theorem Inv.suspended_nodup {st : SessionSt} (h : Inv st) :
    st.suspended.Nodup := by
  refine List.nodup_iff_count_le_one.mpr fun i => ?_
  have hc := h.2.2 i
  by_cases hcond : 1 ≤ i ∧ i ≤ st.message_id
  · rw [if_pos hcond] at hc
    omega
  · rw [if_neg hcond] at hc
    omega

/-- A still-suspended id has no completion entry. -/
theorem Inv.completed_count_zero {st : SessionSt} (h : Inv st) {i : Nat}
    (hi : i ∈ st.suspended) : (st.completed.map Prod.fst).count i = 0 := by
  have hc := h.2.2 i
  have hpos : 0 < st.suspended.count i := List.count_pos_iff.mpr hi
  by_cases hcond : 1 ≤ i ∧ i ≤ st.message_id
  · rw [if_pos hcond] at hc
    omega
  · rw [if_neg hcond] at hc
    omega

/-- The invariant is preserved by every action. -/
theorem Inv_step (st : SessionSt) (a : Act) (h : Inv st) : Inv (step st a) := by
  obtain ⟨h1, h2, h3⟩ := h
  cases a with
  | send =>
      by_cases hw : st.ws_connected
      · have hstep : step st .send =
            { st with message_id := st.message_id + 1
                      pending_commands := st.pending_commands ++ [st.message_id + 1]
                      suspended := st.suspended ++ [st.message_id + 1] } := by
          simp [step, send_command_start, hw]
        rw [hstep]
        have hfs : st.message_id + 1 ∉ st.suspended := fun hm =>
          absurd (Inv.mem_suspended_bound ⟨h1, h2, h3⟩ hm).2 (by omega)
        have hfp : st.message_id + 1 ∉ st.pending_commands := fun hm => hfs (h1 _ hm)
        refine ⟨?_, ?_, ?_⟩
        · intro i hi
          rcases List.mem_append.mp hi with hi | hi
          · exact List.mem_append.mpr (Or.inl (h1 i hi))
          · exact List.mem_append.mpr (Or.inr hi)
        · simp [List.nodup_append, h2, hfp]
        · intro i
          simp only [List.count_append]
          by_cases hieq : i = st.message_id + 1
          · subst hieq
            have hc := h3 (st.message_id + 1)
            rw [if_neg (by omega)] at hc
            rw [if_pos (by omega)]
            have hone : [st.message_id + 1].count (st.message_id + 1) = 1 := by simp
            omega
          · have hc := h3 i
            have hzero : [st.message_id + 1].count i = 0 := by
              rw [List.count_singleton']
              exact if_neg (fun hcontra => hieq hcontra.symm)
            by_cases hcond : 1 ≤ i ∧ i ≤ st.message_id
            · rw [if_pos hcond] at hc
              rw [if_pos (by omega)]
              omega
            · rw [if_neg hcond] at hc
              rw [if_neg (by omega)]
              omega
      · have hstep : step st .send = st := by simp [step, send_command_start, hw]
        rw [hstep]
        exact ⟨h1, h2, h3⟩
  | recv m =>
      by_cases hr : st.recv_alive
      · have hstep : step st (.recv m) = receive_one st m := by simp [step, hr]
        rw [hstep]
        cases hm : m.id with
        | none =>
            have hrec : receive_one st m =
                { st with event_queue := st.event_queue ++ [m] } := by
              simp [receive_one, hm]
            rw [hrec]
            exact ⟨h1, h2, h3⟩
        | some j =>
            by_cases hj : j ∈ st.pending_commands
            · have hrec : receive_one st m =
                  { st with
                      pending_commands := st.pending_commands.erase j
                      suspended := st.suspended.erase j
                      completed := st.completed ++ [(j, replyOutcome m)] } := by
                simp [receive_one, hm, hj]
              rw [hrec]
              have hjs : j ∈ st.suspended := h1 j hj
              refine ⟨?_, h2.erase j, ?_⟩
              · intro i hi
                obtain ⟨hne, hip⟩ := (List.Nodup.mem_erase_iff h2).mp hi
                exact (List.mem_erase_of_ne hne).mpr (h1 i hip)
              · intro i
                simp only [List.map_append, List.count_append]
                have hc := h3 i
                by_cases hieq : i = j
                · subst hieq
                  have hpos : 0 < st.suspended.count i := List.count_pos_iff.mpr hjs
                  rw [List.count_erase_self]
                  have hone : ([(i, replyOutcome m)].map Prod.fst).count i = 1 := by
                    simp
                  omega
                · rw [List.count_erase_of_ne hieq]
                  have hzero : ([(j, replyOutcome m)].map Prod.fst).count i = 0 := by
                    simp only [List.map_cons, List.map_nil, List.count_singleton']
                    exact if_neg (fun hcontra => hieq hcontra.symm)
                  omega
            · have hrec : receive_one st m =
                  { st with pending_commands := st.pending_commands.erase j } := by
                simp [receive_one, hm, hj]
              rw [hrec]
              exact ⟨fun i hi => h1 i (List.mem_of_mem_erase hi), h2.erase j,
                fun i => h3 i⟩
      · have hstep : step st (.recv m) = st := by simp [step, hr]
        rw [hstep]
        exact ⟨h1, h2, h3⟩
  | timeout j =>
      by_cases hj : j ∈ st.suspended
      · have hstep : step st (.timeout j) =
            { st with
                pending_commands := st.pending_commands.erase j
                suspended := st.suspended.erase j
                completed := st.completed ++ [(j, .connectionError)] } := by
          simp [step, hj]
        rw [hstep]
        refine ⟨?_, h2.erase j, ?_⟩
        · intro i hi
          obtain ⟨hne, hip⟩ := (List.Nodup.mem_erase_iff h2).mp hi
          exact (List.mem_erase_of_ne hne).mpr (h1 i hip)
        · intro i
          simp only [List.map_append, List.count_append]
          have hc := h3 i
          by_cases hieq : i = j
          · subst hieq
            have hpos : 0 < st.suspended.count i := List.count_pos_iff.mpr hj
            rw [List.count_erase_self]
            have hone : ([((i : Nat), Outcome.connectionError)].map Prod.fst).count i = 1 := by
              simp
            omega
          · rw [List.count_erase_of_ne hieq]
            have hzero : ([((j : Nat), Outcome.connectionError)].map Prod.fst).count i = 0 := by
              simp only [List.map_cons, List.map_nil, List.count_singleton']
              exact if_neg (fun hcontra => hieq hcontra.symm)
            omega
      · have hstep : step st (.timeout j) = st := by
          simp [step, hj]
        rw [hstep]
        exact ⟨h1, h2, h3⟩
  | disconnect =>
      refine ⟨by simp [step], by simp [step], fun i => h3 i⟩
  | connect =>
      exact ⟨h1, h2, h3⟩

/-- The invariant is preserved by every trace. -/
theorem Inv_run (st : SessionSt) (tr : List Act) (h : Inv st) :
    Inv (run st tr) := by
  induction tr generalizing st with
  | nil => exact h
  | cons a rest ih => exact ih _ (Inv_step st a h)

/-- The completion log only ever grows. -/
theorem completed_mono (st : SessionSt) (a : Act) :
    ∀ x ∈ st.completed, x ∈ (step st a).completed := by
  intro x hx
  cases a with
  | send =>
      by_cases hw : st.ws_connected
      · simp only [step, send_command_start, hw]
        exact hx
      · simp only [step, send_command_start, hw]
        simpa using hx
  | recv m =>
      by_cases hr : st.recv_alive
      · have hstep : step st (.recv m) = receive_one st m := by simp [step, hr]
        rw [hstep]
        cases hm : m.id with
        | none => simpa [receive_one, hm] using hx
        | some j =>
            by_cases hj : j ∈ st.pending_commands
            · have hrec : (receive_one st m).completed =
                  st.completed ++ [(j, replyOutcome m)] := by
                simp [receive_one, hm, hj]
              rw [hrec]
              exact List.mem_append_left _ hx
            · have hrec : (receive_one st m).completed = st.completed := by
                simp [receive_one, hm, hj]
              rw [hrec]
              exact hx
      · have hstep : step st (.recv m) = st := by simp [step, hr]
        rw [hstep]
        exact hx
  | timeout j =>
      by_cases hj : j ∈ st.suspended
      · have hstep : (step st (.timeout j)).completed =
            st.completed ++ [(j, .connectionError)] := by
          simp [step, hj]
        rw [hstep]
        exact List.mem_append_left _ hx
      · have hstep : step st (.timeout j) = st := by simp [step, hj]
        rw [hstep]
        exact hx
  | disconnect => exact hx
  | connect => exact hx

/-- A call that is suspended but whose result-slot is gone (the situation
`disconnect` creates) can only ever finish as `connectionError`: either it is
still suspended with no slot and no completion entry, or a `connectionError`
completion for it has been logged. -/
def Doomed (i : Nat) (st : SessionSt) : Prop :=
  (i ∈ st.suspended ∧ i ∉ st.pending_commands ∧
    (st.completed.map Prod.fst).count i = 0) ∨
  (i, Outcome.connectionError) ∈ st.completed

/-- `Doomed` is preserved by every action (given the invariant). -/
theorem Doomed_step (st : SessionSt) (a : Act) (hInv : Inv st) (i : Nat)
    (hd : Doomed i st) : Doomed i (step st a) := by
  obtain ⟨h1, h2, h3⟩ := hInv
  rcases hd with ⟨hs, hp, hc0⟩ | hmem
  · cases a with
    | send =>
        by_cases hw : st.ws_connected
        · have hstep : step st .send =
              { st with message_id := st.message_id + 1
                        pending_commands := st.pending_commands ++ [st.message_id + 1]
                        suspended := st.suspended ++ [st.message_id + 1] } := by
            simp [step, send_command_start, hw]
          rw [hstep]
          left
          refine ⟨List.mem_append_left _ hs, ?_, hc0⟩
          intro hmem2
          rcases List.mem_append.mp hmem2 with hmem2 | hmem2
          · exact hp hmem2
          · have hb := (Inv.mem_suspended_bound ⟨h1, h2, h3⟩ hs).2
            simp only [List.mem_singleton] at hmem2
            omega
        · have hstep : step st .send = st := by simp [step, send_command_start, hw]
          rw [hstep]
          exact Or.inl ⟨hs, hp, hc0⟩
    | recv m =>
        by_cases hr : st.recv_alive
        · have hstep : step st (.recv m) = receive_one st m := by simp [step, hr]
          rw [hstep]
          cases hm : m.id with
          | none =>
              have hrec : receive_one st m =
                  { st with event_queue := st.event_queue ++ [m] } := by
                simp [receive_one, hm]
              rw [hrec]
              exact Or.inl ⟨hs, hp, hc0⟩
          | some j =>
              by_cases hj : j ∈ st.pending_commands
              · have hij : i ≠ j := fun hcontra => hp (hcontra ▸ hj)
                have hrec : receive_one st m =
                    { st with
                        pending_commands := st.pending_commands.erase j
                        suspended := st.suspended.erase j
                        completed := st.completed ++ [(j, replyOutcome m)] } := by
                  simp [receive_one, hm, hj]
                rw [hrec]
                left
                refine ⟨(List.mem_erase_of_ne hij).mpr hs,
                  fun hmem2 => hp (List.mem_of_mem_erase hmem2), ?_⟩
                simp only [List.map_append, List.count_append]
                have hzero : ([(j, replyOutcome m)].map Prod.fst).count i = 0 := by
                  simp only [List.map_cons, List.map_nil, List.count_singleton']
                  exact if_neg (fun hcontra => hij hcontra.symm)
                omega
              · have hrec : receive_one st m =
                    { st with pending_commands := st.pending_commands.erase j } := by
                  simp [receive_one, hm, hj]
                rw [hrec]
                exact Or.inl ⟨hs, fun hmem2 => hp (List.mem_of_mem_erase hmem2), hc0⟩
        · have hstep : step st (.recv m) = st := by simp [step, hr]
          rw [hstep]
          exact Or.inl ⟨hs, hp, hc0⟩
    | timeout j =>
        by_cases hj : j ∈ st.suspended
        · have hstep : step st (.timeout j) =
              { st with
                  pending_commands := st.pending_commands.erase j
                  suspended := st.suspended.erase j
                  completed := st.completed ++ [(j, .connectionError)] } := by
            simp [step, hj]
          rw [hstep]
          by_cases hij : j = i
          · subst hij
            right
            exact List.mem_append_right _ (List.mem_singleton.mpr rfl)
          · left
            refine ⟨(List.mem_erase_of_ne (fun hcontra => hij hcontra.symm)).mpr hs,
              fun hmem2 => hp (List.mem_of_mem_erase hmem2), ?_⟩
            simp only [List.map_append, List.count_append]
            have hzero : ([((j : Nat), Outcome.connectionError)].map Prod.fst).count i = 0 := by
              simp only [List.map_cons, List.map_nil, List.count_singleton']
              exact if_neg hij
            omega
        · have hstep : step st (.timeout j) = st := by simp [step, hj]
          rw [hstep]
          exact Or.inl ⟨hs, hp, hc0⟩
    | disconnect =>
        left
        exact ⟨hs, by simp [step], hc0⟩
    | connect =>
        exact Or.inl ⟨hs, hp, hc0⟩
  · exact Or.inr (completed_mono st a _ hmem)

/-- `Doomed` is preserved by every trace. -/
theorem Doomed_run (st : SessionSt) (tr : List Act) (hInv : Inv st) (i : Nat)
    (hd : Doomed i st) : Doomed i (run st tr) := by
  induction tr generalizing st with
  | nil => exact hd
  | cons a rest ih => exact ih _ (Inv_step st a hInv) (Doomed_step st a hInv i hd)

/-- C7: when the 30-second timeout of a still-suspended `send_command` call
fires, the call completes with `CDPConnectionError` and its result-slot is
popped: afterwards the pending table holds no entry for that id, and the call
is no longer suspended. -/
theorem c7_timeout_clears_slot_and_fails (tr : List Act) (i : Nat)
    (hi : i ∈ (run initSession tr).suspended) :
    (step (run initSession tr) (.timeout i)).completed =
      (run initSession tr).completed ++ [(i, Outcome.connectionError)] ∧
    i ∉ (step (run initSession tr) (.timeout i)).pending_commands ∧
    i ∉ (step (run initSession tr) (.timeout i)).suspended := by
  have hInv : Inv (run initSession tr) := Inv_run _ _ Inv_initSession
  have hstep : step (run initSession tr) (.timeout i) =
      { run initSession tr with
          pending_commands := (run initSession tr).pending_commands.erase i
          suspended := (run initSession tr).suspended.erase i
          completed := (run initSession tr).completed ++
            [(i, .connectionError)] } := by
    simp [step, hi]
  rw [hstep]
  refine ⟨rfl, ?_, ?_⟩
  · intro hmem
    exact absurd ((List.Nodup.mem_erase_iff hInv.2.1).mp hmem).1 (by simp)
  · intro hmem
    exact absurd ((List.Nodup.mem_erase_iff (Inv.suspended_nodup hInv)).mp hmem).1
      (by simp)

/-- Witness for C7: connect, send one command (id 1), let its timeout fire. -/
theorem c7_timeout_clears_slot_and_fails_witness :
    1 ∈ (run initSession [Act.connect, Act.send]).suspended ∧
    (step (run initSession [Act.connect, Act.send]) (.timeout 1)).completed =
      (run initSession [Act.connect, Act.send]).completed ++
        [(1, Outcome.connectionError)] ∧
    1 ∉ (step (run initSession [Act.connect, Act.send])
        (.timeout 1)).pending_commands ∧
    1 ∉ (step (run initSession [Act.connect, Act.send]) (.timeout 1)).suspended :=
  ⟨by decide, c7_timeout_clears_slot_and_fails [Act.connect, Act.send] 1 (by decide)⟩

/-- C2: in any complete execution (one in which, by the end, every
`send_command` call has been woken — `asyncio.wait_for` guarantees a wakeup
within 30 seconds, so a finished trace has no suspended calls left), every id
issued while connected is completed exactly once, each completion being
fulfilled, protocol-failed or connection-failed by construction of `Outcome`;
and a call still pending at a `disconnect` is completed as
`connectionError` — it does not stay unresolved. -/
theorem c2_commands_complete_exactly_once (tr1 tr2 : List Act) (i : Nat)
    (hi : i ∈ (run initSession (tr1 ++ [Act.disconnect])).suspended)
    (hq : (run initSession ((tr1 ++ [Act.disconnect]) ++ tr2)).suspended = []) :
    (i, Outcome.connectionError) ∈
      (run initSession ((tr1 ++ [Act.disconnect]) ++ tr2)).completed ∧
    ((run initSession ((tr1 ++ [Act.disconnect]) ++ tr2)).completed.map
      Prod.fst).count i = 1 ∧
    (∀ j, 1 ≤ j →
      j ≤ (run initSession ((tr1 ++ [Act.disconnect]) ++ tr2)).message_id →
      ((run initSession ((tr1 ++ [Act.disconnect]) ++ tr2)).completed.map
        Prod.fst).count j = 1) := by
  have hInvMid : Inv (run initSession (tr1 ++ [Act.disconnect])) :=
    Inv_run _ _ Inv_initSession
  have hrunsplit : run initSession ((tr1 ++ [Act.disconnect]) ++ tr2) =
      run (run initSession (tr1 ++ [Act.disconnect])) tr2 := by
    simp [run, List.foldl_append]
  have hmid : run initSession (tr1 ++ [Act.disconnect]) =
      step (run initSession tr1) .disconnect := by
    simp [run, List.foldl_append]
  have hpend : (run initSession (tr1 ++ [Act.disconnect])).pending_commands = [] := by
    rw [hmid]
    rfl
  have hd0 : Doomed i (run initSession (tr1 ++ [Act.disconnect])) :=
    Or.inl ⟨hi, by simp [hpend], Inv.completed_count_zero hInvMid hi⟩
  have hInvFin : Inv (run initSession ((tr1 ++ [Act.disconnect]) ++ tr2)) := by
    rw [hrunsplit]
    exact Inv_run _ _ hInvMid
  have hdfin : Doomed i (run initSession ((tr1 ++ [Act.disconnect]) ++ tr2)) := by
    rw [hrunsplit]
    exact Doomed_run _ _ hInvMid i hd0
  rcases hdfin with ⟨hs, _, _⟩ | hmem
  · rw [hq] at hs
    cases hs
  · have hpos : 0 <
        ((run initSession ((tr1 ++ [Act.disconnect]) ++ tr2)).completed.map
          Prod.fst).count i :=
      List.count_pos_iff.mpr (List.mem_map_of_mem Prod.fst hmem)
    have hcnt := hInvFin.2.2 i
    rw [hq] at hcnt
    simp only [List.count_nil, Nat.add_zero] at hcnt
    refine ⟨hmem, ?_, ?_⟩
    · by_cases hcond : 1 ≤ i ∧
        i ≤ (run initSession ((tr1 ++ [Act.disconnect]) ++ tr2)).message_id
      · rw [if_pos hcond] at hcnt
        omega
      · rw [if_neg hcond] at hcnt
        omega
    · intro j hj1 hj2
      have hcj := hInvFin.2.2 j
      rw [hq] at hcj
      simp only [List.count_nil, Nat.add_zero] at hcj
      rw [if_pos ⟨hj1, hj2⟩] at hcj
      exact hcj

/-- Witness for C2: connect, send command 1, disconnect while it is pending,
then its timeout fires; the finished trace completes id 1 exactly once, as a
connection error. -/
theorem c2_commands_complete_exactly_once_witness :
    1 ∈ (run initSession ([Act.connect, Act.send] ++ [Act.disconnect])).suspended ∧
    (1, Outcome.connectionError) ∈
      (run initSession (([Act.connect, Act.send] ++ [Act.disconnect]) ++
        [Act.timeout 1])).completed ∧
    ((run initSession (([Act.connect, Act.send] ++ [Act.disconnect]) ++
      [Act.timeout 1])).completed.map Prod.fst).count 1 = 1 :=
  ⟨by decide,
   (c2_commands_complete_exactly_once [Act.connect, Act.send] [Act.timeout 1] 1
      (by decide) (by decide)).1,
   (c2_commands_complete_exactly_once [Act.connect, Act.send] [Act.timeout 1] 1
      (by decide) (by decide)).2.1⟩

end Devlogd
